import Mathlib

/-!
Verification of the duo-auth-rs client (src/client.rs) against its
specification. The HTTP transport and JSON parsing are external
collaborators; responses are modelled as an HTTP status code together with
the parse result of the body (`none` when the body is not valid JSON).
Each endpoint operation of `DuoClient` is embedded as the pure function
from a decoded response to its result, and the `auth` polling loop as a
function over a scripted sequence of status-poll outcomes that also
records the trace of calls and sleeps.
-/

namespace DuoAuth

/-- A JSON value, as produced by the serde_json collaborator. Numbers are
restricted to the unsigned integers the client actually decodes (u64). -/
inductive Json where
  | null : Json
  | bool (b : Bool) : Json
  | num (n : Nat) : Json
  | str (s : String) : Json
  | arr (xs : List Json) : Json
  | obj (fields : List (String × Json)) : Json
deriving Repr, BEq

/-- Field lookup in a JSON object; `none` for non-objects or absent keys.
Models serde field access on a struct-shaped object. -/
def Json.lookup : Json → String → Option Json
  | .obj fields, k => fields.lookup k
  | _, _ => none

/-- Decode a JSON value as a string, as serde does for a `String` field. -/
def Json.asStr : Json → Option String
  | .str s => some s
  | _ => none

/-- Decode a JSON value as an unsigned integer, as serde does for `u64`. -/
def Json.asNat : Json → Option Nat
  | .num n => some n
  | _ => none

/-- The crate error taxonomy. The source builds errors from formatted
strings (client.rs lines 69, 134, 168, 202, 216); each construction site
is mapped to one structured constructor carrying the same data the
formatted message carries. -/
inductive Error where
  | configurationError (msg : String) : Error
  | transportError (msg : String) : Error
  | upstreamError (status : Nat) : Error
  | decodeError : Error
  | unexpectedResult (v : String) : Error
deriving Repr, DecidableEq

/-- The host component of a parsed base URL. URL parsing is the external
url crate; only the component the client reads (`host_str`) is modelled. -/
structure Url where
  host : Option String
deriving Repr, DecidableEq

/-- The shared immutable client state (struct DuoClientInner, minus the
HTTP transport handle, which is an external capability). -/
structure DuoClientInner where
  base_url : Url
  ikey : String
  skey : String
deriving Repr, DecidableEq

/-- Outcome of client construction. `panic` models a Rust panic (process
abort via `expect`), distinct from returning an `Err` value. -/
inductive NewResult where
  | ok (client : DuoClientInner) : NewResult
  | err (e : Error) : NewResult
  | panic (msg : String) : NewResult
deriving Repr, DecidableEq

/-- DuoClient::new (client.rs lines 33-49), embedded over the result of
`Url::parse(&api_domain)`: a parse failure propagates through `?` as a
configuration error; a parsed URL without a host hits
`.expect("No domain in provided api_domain")`, a panic; otherwise the
inner state is built from the URL and the two keys, unvalidated. -/
def DuoClient.new (parsed : Except String Url) (ikey skey : String) :
    NewResult :=
  match parsed with
  | .error e => .err (.configurationError e)
  | .ok base_url =>
    match base_url.host with
    | none => .panic "No domain in provided api_domain"
    | some _ => .ok ⟨base_url, ikey, skey⟩

/-- An HTTP response as seen after the transport: the status code and the
parse result of the body (`none` when `response.json()` fails because the
body is not valid JSON). -/
structure Response where
  status : Nat
  body : Option Json
deriving Repr

/-- The envelope struct DuoResponse<T> (client.rs lines 23-30). -/
structure DuoResponse (T : Type) where
  response : T
  stat : String
  code : Option Nat
  message : Option String
deriving Repr

/-- Decode an optional field, as serde does for `Option<u64>`: an absent
or null field is `none`; a present field must decode. -/
def decodeOptNat (j : Json) (k : String) : Option (Option Nat) :=
  match j.lookup k with
  | none => some none
  | some .null => some none
  | some v => (v.asNat).map some

/-- Decode an optional field, as serde does for `Option<String>`. -/
def decodeOptStr (j : Json) (k : String) : Option (Option String) :=
  match j.lookup k with
  | none => some none
  | some .null => some none
  | some v => (v.asStr).map some

/-- Decode the DuoResponse<T> envelope, given a decoder for the payload,
following the serde derive for the struct at client.rs lines 23-30. -/
def decodeDuoResponse (decT : Json → Option T) (j : Json) :
    Option (DuoResponse T) := do
  let response ← (j.lookup "response").bind decT
  let stat ← (j.lookup "stat").bind Json.asStr
  let code ← decodeOptNat j "code"
  let message ← decodeOptStr j "message"
  pure ⟨response, stat, code, message⟩

/-- struct CheckResponse (client.rs lines 72-75). -/
structure CheckResponse where
  time : Nat
deriving Repr, DecidableEq

/-- serde derive for CheckResponse. -/
def decodeCheckResponse (j : Json) : Option CheckResponse := do
  let time ← (j.lookup "time").bind Json.asNat
  pure ⟨time⟩

/-- struct AuthResponse (client.rs lines 171-174). -/
structure AuthResponse where
  txid : String
deriving Repr, DecidableEq

/-- serde derive for AuthResponse. -/
def decodeAuthResponse (j : Json) : Option AuthResponse := do
  let txid ← (j.lookup "txid").bind Json.asStr
  pure ⟨txid⟩

/-- struct AuthStatusResponse (client.rs lines 206-209). -/
structure AuthStatusResponse where
  result : String
deriving Repr, DecidableEq

/-- serde derive for AuthStatusResponse. -/
def decodeAuthStatusResponse (j : Json) : Option AuthStatusResponse := do
  let result ← (j.lookup "result").bind Json.asStr
  pure ⟨result⟩

/-- Modelled from the spec: PreauthResponse lives in src/types.rs, which
is absent from the repository snapshot; per spec section 4.4 it is an
opaque capability-check payload passed through to the caller, so it is
modelled as the raw JSON payload with a pass-through decoder. -/
def PreauthResponse := Json

/-- Modelled from the spec: the pass-through decoder for the opaque
preauth payload. -/
def decodePreauthResponse (j : Json) : Option PreauthResponse := some j

/-- The error path shared verbatim by all four endpoint bodies
(client.rs lines 64-70, 129-135, 163-169, 197-204): on a non-200 status
the body is first decoded as serde_json::Value through `?` (so a
non-JSON body surfaces as a decode error), then an error carrying the
status code is returned. Returns `none` when the status is 200. -/
def non200 (resp : Response) : Option (Except Error α) :=
  if resp.status ≠ 200 then
    match resp.body with
    | none => some (.error .decodeError)
    | some _ => some (.error (.upstreamError resp.status))
  else
    none

/-- DuoClient::check response handling (client.rs lines 63-80): non-200
handling, then decode DuoResponse<CheckResponse> and return the time. -/
def check (resp : Response) : Except Error Nat :=
  match non200 resp with
  | some e => e
  | none =>
    match resp.body.bind (decodeDuoResponse decodeCheckResponse) with
    | none => .error .decodeError
    | some body => .ok body.response.time

/-- DuoClient::request_preauth response handling (client.rs lines
128-138): non-200 handling, then decode DuoResponse<PreauthResponse>
and return the payload. -/
def request_preauth (resp : Response) : Except Error PreauthResponse :=
  match non200 resp with
  | some e => e
  | none =>
    match resp.body.bind (decodeDuoResponse decodePreauthResponse) with
    | none => .error .decodeError
    | some body => .ok body.response

/-- DuoClient::request_auth response handling (client.rs lines 162-178):
non-200 handling, then decode DuoResponse<AuthResponse> and return the
transaction identifier. -/
def request_auth (resp : Response) : Except Error String :=
  match non200 resp with
  | some e => e
  | none =>
    match resp.body.bind (decodeDuoResponse decodeAuthResponse) with
    | none => .error .decodeError
    | some body => .ok body.response.txid

/-- DuoClient::request_auth_status response handling (client.rs lines
196-218): non-200 handling, then decode DuoResponse<AuthStatusResponse>
and map the result string exactly as the `match` at lines 212-217:
waiting to Ok(None), allow to Ok(Some true), deny to Ok(Some false), and
any other string to an error carrying that string. -/
def request_auth_status (resp : Response) : Except Error (Option Bool) :=
  match non200 resp with
  | some e => e
  | none =>
    match resp.body.bind (decodeDuoResponse decodeAuthStatusResponse) with
    | none => .error .decodeError
    | some body =>
      match body.response.result with
      | "waiting" => .ok none
      | "allow" => .ok (some true)
      | "deny" => .ok (some false)
      | v => .error (.unexpectedResult v)

/-- Modelled from the spec: the Parameters type lives in src/request.rs,
which is absent from the repository snapshot; per spec section 4.1 it is
an ordered mapping with unique keys, insertion order preserved, where
`set` inserts or overwrites (last write wins). -/
def Parameters := List (String × String)

/-- Modelled from the spec: Parameters::default, the empty mapping. -/
def Parameters.default : Parameters := []

/-- Modelled from the spec: Parameters::set inserts a new key at the end
or overwrites the value of an existing key in place. -/
def Parameters.set (ps : Parameters) (name value : String) : Parameters :=
  match ps with
  | [] => [(name, value)]
  | (k, v) :: rest =>
    if k = name then (k, value) :: rest
    else (k, v) :: Parameters.set rest name value

/-- HTTP method of a request. -/
inductive HttpMethod where
  | get : HttpMethod
  | post : HttpMethod
deriving Repr, DecidableEq

/-- The data DuoRequest::new receives for one call: method, path, and the
parameter set (the base URL is the shared configured one). -/
structure RequestSpec where
  method : HttpMethod
  path : String
  params : Parameters

/-- The request built by DuoClient::request_auth (client.rs lines
146-159): POST to /auth/v2/auth with the six parameters set in source
order, display_username formatted from the share index. -/
def request_auth_request (user_id : String) (share_n : Nat) : RequestSpec :=
  let parameters := Parameters.default
  let parameters := parameters.set "user_id" user_id
  let parameters := parameters.set "factor" "auto"
  let parameters := parameters.set "async" "1"
  let parameters := parameters.set "type" "Authorize share"
  let parameters := parameters.set "device" "auto"
  let parameters := parameters.set "display_username"
      ("Share " ++ toString share_n)
  ⟨.post, "/auth/v2/auth", parameters⟩

/-- An observable event of one `auth` invocation: the start call, one
status poll, or a sleep of a number of seconds. -/
inductive Event where
  | startCall : Event
  | statusCall : Event
  | sleepSecs (n : Nat) : Event
deriving Repr, DecidableEq

/-- The polling loop of DuoClient::auth (client.rs lines 103-109), run
against a finite script of outcomes of successive request_auth_status
calls. Returns the trace of events and `some` result when some poll
returned a terminal value or an error before the script ran out; `none`
means every scripted poll returned pending and the loop is still
running (the source loop has no other exit). -/
def authLoop : List (Except Error (Option Bool)) →
    List Event × Option (Except Error Bool)
  | [] => ([], none)
  | r :: rest =>
    match r with
    | .error e => ([.statusCall], some (.error e))
    | .ok (some v) => ([.statusCall], some (.ok v))
    | .ok none =>
      let out := authLoop rest
      (.statusCall :: .sleepSecs 2 :: out.1, out.2)

/-- DuoClient::auth (client.rs lines 92-111), run against the outcome of
the single request_auth call and a script for the status polls: a failed
start propagates through `?` immediately; a successful start enters the
polling loop. -/
def auth (startResult : Except Error String)
    (script : List (Except Error (Option Bool))) :
    List Event × Option (Except Error Bool) :=
  match startResult with
  | .error e => ([.startCall], some (.error e))
  | .ok _txid =>
    let out := authLoop script
    (.startCall :: out.1, out.2)

/-- The status-poll outcome the source produces for one scripted result
string arriving in a well-formed 200 response, composing the literal
mapping at client.rs lines 212-217. -/
def pollOf (s : String) : Except Error (Option Bool) :=
  request_auth_status ⟨200, some (.obj
    [("response", .obj [("result", .str s)]), ("stat", .str "OK")])⟩

/-- Helper: on a non-200 status with a JSON body, the shared error path
yields the upstream error carrying the status. -/
theorem non200_some_body (st : Nat) (j : Json) (h : st ≠ 200) :
    (non200 ⟨st, some j⟩ : Option (Except Error α)) =
      some (.error (.upstreamError st)) := by
  simp [non200, h]

/-- Helper: on a non-200 status with a non-JSON body, the shared error
path yields the decode error (the status is lost). -/
theorem non200_no_body (st : Nat) (h : st ≠ 200) :
    (non200 ⟨st, none⟩ : Option (Except Error α)) =
      some (.error .decodeError) := by
  simp [non200, h]

/-- Helper: on a 200 status the shared error path is skipped. -/
theorem non200_ok (resp : Response) (h : resp.status = 200) :
    (non200 resp : Option (Except Error α)) = none := by
  simp [non200, h]

/-- Helper: the polling loop on k pending polls followed by a failed
poll makes exactly k+1 status calls, sleeping 2 seconds after each
pending one, and stops with that error. -/
theorem authLoop_pending_then_err (k : Nat) (e : Error)
    (rest : List (Except Error (Option Bool))) :
    authLoop (List.replicate k (.ok none) ++ .error e :: rest) =
      ((List.replicate k [Event.statusCall, Event.sleepSecs 2]).flatten ++
        [Event.statusCall], some (.error e)) := by
  induction k with
  | zero => rfl
  | succ n ih => simp [List.replicate_succ, authLoop, ih]

/-- C1: for the high-level auth operation, given the scripted status
sequence [waiting, waiting, allow], exactly one start-authentication call
occurs, exactly three status calls occur, and auth returns true; given
the sequence [deny], exactly one status call occurs and auth returns
false. -/
theorem C1_auth_scripted_sequences :
    ((auth (.ok "txid") (["waiting", "waiting", "allow"].map pollOf)).1.count
        Event.startCall = 1 ∧
      (auth (.ok "txid") (["waiting", "waiting", "allow"].map pollOf)).1.count
        Event.statusCall = 3 ∧
      (auth (.ok "txid") (["waiting", "waiting", "allow"].map pollOf)).2 =
        some (.ok true)) ∧
    ((auth (.ok "txid") (["deny"].map pollOf)).1.count Event.statusCall = 1 ∧
      (auth (.ok "txid") (["deny"].map pollOf)).2 = some (.ok false)) :=
  ⟨⟨rfl, rfl, rfl⟩, rfl, rfl⟩

/-- C2: the auth_status result mapping is total over strings: waiting
maps to pending (None), allow to allowed (Some true), deny to denied
(Some false), and every other result string yields the
unexpected-result error carrying the literal string, never a panic or a
silent default. -/
theorem C2_auth_status_mapping :
    pollOf "waiting" = .ok none ∧
    pollOf "allow" = .ok (some true) ∧
    pollOf "deny" = .ok (some false) ∧
    ∀ s : String, s ≠ "waiting" → s ≠ "allow" → s ≠ "deny" →
      pollOf s = .error (.unexpectedResult s) := by
  refine ⟨rfl, rfl, rfl, fun s h1 h2 h3 => ?_⟩
  show (match s with
    | "waiting" => (Except.ok none : Except Error (Option Bool))
    | "allow" => Except.ok (some true)
    | "deny" => Except.ok (some false)
    | v => Except.error (Error.unexpectedResult v)) =
    Except.error (Error.unexpectedResult s)
  split
  · exact absurd rfl h1
  · exact absurd rfl h2
  · exact absurd rfl h3
  · rfl

/-- C2 witness: the fourth-literal case at the concrete string bogus. -/
theorem C2_auth_status_mapping_witness :
    pollOf "bogus" = .error (.unexpectedResult "bogus") :=
  C2_auth_status_mapping.2.2.2 "bogus" (by decide) (by decide) (by decide)

/-- C10: DuoClient::new applies no validation to the integration key or
the secret key: for every pair of strings ikey and skey, including empty
strings, construction succeeds whenever the parsed URL has a host; only
the URL is checked. -/
theorem C10_new_no_key_validation :
    ∀ (ikey skey host : String),
      DuoClient.new (.ok ⟨some host⟩) ikey skey =
        .ok ⟨⟨some host⟩, ikey, skey⟩ := by
  intro ikey skey host
  rfl

/-- C3 counterexample: a response with HTTP status 400 whose body is not
valid JSON yields a decode error at every endpoint, not the upstream
error carrying 400 the claim promises for every response body. -/
theorem C3_counterexample_malformed_body :
    check ⟨400, none⟩ = .error .decodeError ∧
    check ⟨400, none⟩ ≠ .error (.upstreamError 400) ∧
    request_preauth ⟨400, none⟩ = .error .decodeError ∧
    request_auth ⟨400, none⟩ = .error .decodeError ∧
    request_auth_status ⟨400, none⟩ = .error .decodeError := by
  refine ⟨rfl, ?_, rfl, rfl, rfl⟩
  intro h
  exact Error.noConfusion (Except.error.inj h)

/-- C3 amended: at every endpoint, a non-200 response whose body parses
as JSON yields the upstream error carrying the literal status code, and
a non-200 response whose body is not valid JSON yields a decode error
instead (the body is decoded through the question-mark operator before
the status error is built). -/
theorem C3_non200_taxonomy :
    ∀ resp : Response, resp.status ≠ 200 →
      ((∀ j, resp.body = some j →
        check resp = .error (.upstreamError resp.status) ∧
        request_preauth resp = .error (.upstreamError resp.status) ∧
        request_auth resp = .error (.upstreamError resp.status) ∧
        request_auth_status resp = .error (.upstreamError resp.status)) ∧
      (resp.body = none →
        check resp = .error .decodeError ∧
        request_preauth resp = .error .decodeError ∧
        request_auth resp = .error .decodeError ∧
        request_auth_status resp = .error .decodeError)) := by
  rintro ⟨st, body⟩ h
  constructor
  · rintro j rfl
    refine ⟨?_, ?_, ?_, ?_⟩ <;>
      simp [check, request_preauth, request_auth, request_auth_status,
        non200_some_body st j h]
  · rintro rfl
    refine ⟨?_, ?_, ?_, ?_⟩ <;>
      simp [check, request_preauth, request_auth, request_auth_status,
        non200_no_body st h]

/-- C3 witness: the amended fact at status 400 with a JSON body and with
a non-JSON body, at the check endpoint. -/
theorem C3_non200_taxonomy_witness :
    check ⟨400, some Json.null⟩ = .error (.upstreamError 400) ∧
    check ⟨400, none⟩ = .error .decodeError :=
  ⟨((C3_non200_taxonomy ⟨400, some Json.null⟩ (by decide)).1 Json.null
      rfl).1,
   ((C3_non200_taxonomy ⟨400, none⟩ (by decide)).2 rfl).1⟩

/-- C4 counterexample: a 200 response whose envelope has stat FAIL and a
decodable payload with time 42 makes check return the timestamp 42; the
envelope stat is never inspected, so no upstream error is produced. -/
theorem C4_counterexample_stat_ignored :
    check ⟨200, some (.obj [("response", .obj [("time", .num 42)]),
      ("stat", .str "FAIL")])⟩ = .ok 42 := rfl

/-- C4 amended: check ignores the envelope stat entirely: for every 200
response whose body decodes as the envelope, check returns the payload
timestamp whatever the stat value is (including FAIL); when the envelope
does not decode, the result is a decode error, not an upstream error. -/
theorem C4_check_ignores_stat :
    ∀ (resp : Response) (env : DuoResponse CheckResponse),
      resp.status = 200 →
      (resp.body.bind (decodeDuoResponse decodeCheckResponse) = some env →
        check resp = .ok env.response.time) ∧
      (resp.body.bind (decodeDuoResponse decodeCheckResponse) = none →
        check resp = .error .decodeError) := by
  intro resp env h
  constructor
  · intro hdec
    simp [check, non200_ok resp h, hdec]
  · intro hdec
    simp [check, non200_ok resp h, hdec]

/-- C4 witness: the amended fact at the concrete stat FAIL envelope with
time 42. -/
theorem C4_check_ignores_stat_witness :
    check ⟨200, some (.obj [("response", .obj [("time", .num 42)]),
      ("stat", .str "FAIL")])⟩ = .ok 42 :=
  (C4_check_ignores_stat
    ⟨200, some (.obj [("response", .obj [("time", .num 42)]),
      ("stat", .str "FAIL")])⟩
    ⟨⟨42⟩, "FAIL", none, none⟩ rfl).1 rfl

/-- C5: evaluation at the failing input: when the api_domain parses as a
URL without a host, DuoClient::new panics (aborting the process) with
the expect message, instead of returning a configuration error; the
parse-failure half of the claim does hold, returning an error value. -/
theorem C5_new_no_host_panics :
    DuoClient.new (.ok ⟨none⟩) "ikey" "skey" =
      .panic "No domain in provided api_domain" ∧
    ∀ (e ikey skey : String),
      DuoClient.new (.error e) ikey skey = .err (.configurationError e) :=
  ⟨rfl, fun _ _ _ => rfl⟩

/-- C6: the polling loop is unbounded: it yields a result exactly when
some scripted poll is terminal or an error, and on an all-pending script
of any length n it makes n status calls, sleeping a fixed 2 seconds
after each, and is still running with no client-side bound: no maximum
iteration count or timeout exists. -/
theorem C6_polling_unbounded :
    (∀ script : List (Except Error (Option Bool)),
      (authLoop script).2.isSome ↔ ∃ r ∈ script, r ≠ .ok none) ∧
    (∀ n : Nat, authLoop (List.replicate n (.ok none)) =
      ((List.replicate n [Event.statusCall, Event.sleepSecs 2]).flatten,
        none)) := by
  constructor
  · intro script
    induction script with
    | nil => simp [authLoop]
    | cons r rest ih =>
      match r with
      | .error e => simp [authLoop]
      | .ok (some v) => simp [authLoop]
      | .ok none => simpa [authLoop] using ih
  · intro n
    induction n with
    | zero => rfl
    | succ m ih => simp [List.replicate_succ, authLoop, ih]

/-- C7: within one auth invocation, a failed start-authentication call
yields a trace of exactly the start call and no status poll, and a
status poll that fails after k pending polls ends the trace at exactly
one start call and k+1 status calls: no retry of start and no further
poll after a failure. -/
theorem C7_failures_abort :
    (∀ (e : Error) (script : List (Except Error (Option Bool))),
      auth (.error e) script = ([Event.startCall], some (.error e))) ∧
    (∀ (txid : String) (k : Nat) (e : Error)
        (rest : List (Except Error (Option Bool))),
      auth (.ok txid)
          (List.replicate k (.ok none) ++ .error e :: rest) =
        (Event.startCall ::
          ((List.replicate k [Event.statusCall, Event.sleepSecs 2]).flatten ++
            [Event.statusCall]),
          some (.error e))) := by
  refine ⟨fun _ _ => rfl, fun txid k e rest => ?_⟩
  simp [auth, authLoop_pending_then_err k e rest]

/-- C8: the start-authentication request is a POST to /auth/v2/auth with
exactly the six parameters user_id, factor=auto, async=1, the fixed type
label, device=auto, and display_username formatted from the share index;
on a well-formed 200 response, the txid of the envelope payload is
returned. -/
theorem C8_request_auth_exact :
    (∀ (user_id : String) (share_n : Nat),
      request_auth_request user_id share_n =
        ⟨.post, "/auth/v2/auth",
          [("user_id", user_id), ("factor", "auto"), ("async", "1"),
           ("type", "Authorize share"), ("device", "auto"),
           ("display_username", "Share " ++ toString share_n)]⟩) ∧
    (∀ (resp : Response) (env : DuoResponse AuthResponse),
      resp.status = 200 →
      resp.body.bind (decodeDuoResponse decodeAuthResponse) = some env →
      request_auth resp = .ok env.response.txid) := by
  refine ⟨fun user_id share_n => rfl, fun resp env h hdec => ?_⟩
  simp [request_auth, non200_ok resp h, hdec]

/-- C8 witness: the request built for user alice and share index 3, and
the txid returned from a concrete well-formed 200 response. -/
theorem C8_request_auth_exact_witness :
    request_auth_request "alice" 3 =
      ⟨.post, "/auth/v2/auth",
        [("user_id", "alice"), ("factor", "auto"), ("async", "1"),
         ("type", "Authorize share"), ("device", "auto"),
         ("display_username", "Share 3")]⟩ ∧
    request_auth ⟨200, some (.obj
        [("response", .obj [("txid", .str "tx-1")]),
         ("stat", .str "OK")])⟩ = .ok "tx-1" :=
  ⟨C8_request_auth_exact.1 "alice" 3,
   C8_request_auth_exact.2
     ⟨200, some (.obj [("response", .obj [("txid", .str "tx-1")]),
       ("stat", .str "OK")])⟩
     ⟨⟨"tx-1"⟩, "OK", none, none⟩ rfl rfl⟩

/-- C9: the pending outcome is never returned by auth: every boolean
auth returns comes from a terminal scripted poll entry, never from a
pending one, and a pending poll result only causes another loop
iteration (one more status call after a 2 second sleep). -/
theorem C9_pending_never_returned :
    (∀ (startResult : Except Error String)
        (script : List (Except Error (Option Bool))) (b : Bool),
      (auth startResult script).2 = some (.ok b) →
        Except.ok (some b) ∈ script) ∧
    (∀ rest : List (Except Error (Option Bool)),
      authLoop (.ok none :: rest) =
        (Event.statusCall :: Event.sleepSecs 2 :: (authLoop rest).1,
          (authLoop rest).2)) := by
  refine ⟨fun startResult script b h => ?_, fun rest => rfl⟩
  match startResult with
  | .error e => exact Except.noConfusion (Option.some.inj h)
  | .ok txid =>
    have h2 : (authLoop script).2 = some (.ok b) := h
    clear h
    induction script with
    | nil => exact Option.noConfusion h2
    | cons r rest ih =>
      match r with
      | .error e => exact Except.noConfusion (Option.some.inj h2)
      | .ok (some v) =>
        simp only [authLoop, Option.some.injEq, Except.ok.injEq] at h2
        subst h2
        exact List.mem_cons_self _ _
      | .ok none =>
        exact List.mem_cons_of_mem _ (ih h2)

/-- C9 witness: applying the invariant to the one-entry terminal script
that allows. -/
theorem C9_pending_never_returned_witness :
    Except.ok (some true) ∈
      ([Except.ok (some true)] : List (Except Error (Option Bool))) :=
  C9_pending_never_returned.1 (.ok "t") [Except.ok (some true)] true rfl

end DuoAuth
